import Mathlib

/-!
Verification of the team rolling-state computation and training-row feature
derivation of the odds-value repository.

The development shallowly embeds:
* `jobs/team_game_state.py` — the single-pass rolling aggregator
  (`backfill_team_game_state`), the season-average SQL pass
  (`backfill_team_game_state_avg_points`) and the windowed yardage/turnover
  SQL pass (`backfill_team_game_state_football_rollups`);
* `analytics/training_data.py` — the training-row SELECT
  (`build_training_rows_stmt`) and `fetch_training_rows`;
* `analytics/baseline.py` — the `extract_xy` feature-matrix guard.

Python floats are modelled as `ℚ` (every claim here is about which games
enter a computation, not about binary rounding), SQL `datetime` as `ℕ`,
nullable columns as `Option`.
-/

namespace OddsValue

/-- Result of one completed game from one team's perspective
(`_TeamResult` in `jobs/team_game_state.py`). -/
structure TeamResult where
  points_for : ℤ
  points_against : ℤ
deriving DecidableEq, Repr

/-- The `point_diff` property of `_TeamResult`. -/
def TeamResult.point_diff (r : TeamResult) : ℤ :=
  r.points_for - r.points_against

/-- A row of the `games` table (`db/models/game.py`), restricted to the
columns the aggregator and feature assembler read.  `season_id` is kept
non-optional: games without a season are outside every claim's scope
(the training SELECT inner-joins `Season` and the league-average subquery
compares `season_id` by equality).  Elided: `provider_game_id`, `status`,
`venue_id`, `is_neutral_site`, `source_last_seen_at`. -/
structure Game where
  id : ℕ
  league_id : ℕ
  season_id : ℕ
  week : Option ℕ
  start_time : ℕ
  home_team_id : ℕ
  away_team_id : ℕ
  home_score : Option ℤ
  away_score : Option ℤ
deriving DecidableEq, Repr

/-- A row of the `team_game_state` table as actually populated by
`backfill_team_game_state` and read by `build_training_rows_stmt`
(the richer combined variant: the superseded single-window ORM file in
`db/models/features/team_game_state.py` lacks these columns, but every
claim's code writes/reads them).  The twelve rollup columns and the three
per-game-average columns are nullable and start NULL; the two later SQL
passes fill them in. -/
structure TeamGameState where
  team_id : ℕ
  game_id : ℕ
  season_id : ℕ
  week : Option ℕ
  start_time : ℕ
  games_played : ℕ
  off_pts_l3 : ℚ
  def_pa_l3 : ℚ
  off_pts_l5 : ℚ
  def_pa_l5 : ℚ
  off_pts_season : ℚ
  def_pa_season : ℚ
  avg_points_for : Option ℚ := none
  avg_points_against : Option ℚ := none
  avg_point_diff : Option ℚ := none
  off_yards_l3 : Option ℚ := none
  off_yards_l5 : Option ℚ := none
  off_yards_season : Option ℚ := none
  off_turnovers_l3 : Option ℚ := none
  off_turnovers_l5 : Option ℚ := none
  off_turnovers_season : Option ℚ := none
  def_yards_allowed_l3 : Option ℚ := none
  def_yards_allowed_l5 : Option ℚ := none
  def_yards_allowed_season : Option ℚ := none
  def_takeaways_l3 : Option ℚ := none
  def_takeaways_l5 : Option ℚ := none
  def_takeaways_season : Option ℚ := none
deriving DecidableEq, Repr

/-- A row of the `seasons` table (`db/models/season.py`), restricted to the
columns the training SELECT reads. -/
structure Season where
  id : ℕ
  league_id : ℕ
  year : ℤ
deriving DecidableEq, Repr

/-- The helper `_avg_points_for` of `jobs/team_game_state.py`: mean of
`points_for` over a window, `0.0` for the empty window. -/
def avg_points_for_fn (results : List TeamResult) : ℚ :=
  if results.isEmpty then 0
  else ((results.map TeamResult.points_for).sum : ℚ) / (results.length : ℚ)

/-- The helper `_avg_points_against` of `jobs/team_game_state.py`. -/
def avg_points_against_fn (results : List TeamResult) : ℚ :=
  if results.isEmpty then 0
  else ((results.map TeamResult.points_against).sum : ℚ) / (results.length : ℚ)

/-- The mutable loop state of `backfill_team_game_state`:
`last3`/`last5` are the per-team bounded deques (`defaultdict` of
`deque(maxlen=3)` / `deque(maxlen=5)`, modelled as total maps into lists
kept newest-first), and the three season accumulators are `defaultdict(int)`
maps keyed by `(team_id, season_id)`. -/
@[ext]
structure AggState where
  last3 : ℕ → List TeamResult
  last5 : ℕ → List TeamResult
  season_tot_pf : ℕ × ℕ → ℤ
  season_tot_pa : ℕ × ℕ → ℤ
  season_cnt : ℕ × ℕ → ℕ

/-- The fresh state at the start of a backfill run (all `defaultdict`s
empty). -/
def initAggState : AggState :=
  { last3 := fun _ => [],
    last5 := fun _ => [],
    season_tot_pf := fun _ => 0,
    season_tot_pa := fun _ => 0,
    season_cnt := fun _ => 0 }

/-- Point update of a total map (one `dict` assignment). -/
def updFn {α β : Type} [DecidableEq α] (f : α → β) (k : α) (v : β) : α → β :=
  fun x => if x = k then v else f x

/-- An `x[k] += v` update on an integer-valued `defaultdict`. -/
def addZ (f : ℕ × ℕ → ℤ) (k : ℕ × ℕ) (v : ℤ) : ℕ × ℕ → ℤ :=
  fun x => if x = k then f k + v else f x

/-- An `x[k] += 1` update on a counter `defaultdict`. -/
def incN (f : ℕ × ℕ → ℕ) (k : ℕ × ℕ) : ℕ × ℕ → ℕ :=
  fun x => if x = k then f k + 1 else f x

/-- One `deque(maxlen=n).append(r)`: with the newest-first list
representation, cons then truncate to `n` (the oldest entry beyond the
capacity is evicted). -/
def pushWindow (n : ℕ) (r : TeamResult) (w : List TeamResult) : List TeamResult :=
  (r :: w).take n

/-- One `lastN[team].append(result)` on the map of deques. -/
def pushResult (w : ℕ → List TeamResult) (n t : ℕ) (r : TeamResult) :
    ℕ → List TeamResult :=
  updFn w t (pushWindow n r (w t))

/-- The snapshot row the loop body of `backfill_team_game_state` appends to
`buffer` for one side of game `g` (the home and away blocks of the source
are identical up to the team id, factored here). All reads happen against
the state as it stood before `g` is folded in. -/
def emitSnapshot (st : AggState) (g : Game) (t : ℕ) : TeamGameState :=
  { team_id := t,
    game_id := g.id,
    season_id := g.season_id,
    week := g.week,
    start_time := g.start_time,
    games_played := st.season_cnt (t, g.season_id),
    off_pts_l3 := avg_points_for_fn (st.last3 t),
    def_pa_l3 := avg_points_against_fn (st.last3 t),
    off_pts_l5 := avg_points_for_fn (st.last5 t),
    def_pa_l5 := avg_points_against_fn (st.last5 t),
    off_pts_season := (st.season_tot_pf (t, g.season_id) : ℚ),
    def_pa_season := (st.season_tot_pa (t, g.season_id) : ℚ) }

/-- Folding a completed game's result into both teams' windows and season
accumulators (the block after the two `buffer.append` calls).  Updates are
sequential exactly as in the source: home pushes happen before away
pushes. -/
def foldGame (st : AggState) (g : Game) (hs a : ℤ) : AggState :=
  let rh : TeamResult := ⟨hs, a⟩
  let ra : TeamResult := ⟨a, hs⟩
  let hk : ℕ × ℕ := (g.home_team_id, g.season_id)
  let ak : ℕ × ℕ := (g.away_team_id, g.season_id)
  { last3 := pushResult (pushResult st.last3 3 g.home_team_id rh) 3 g.away_team_id ra,
    last5 := pushResult (pushResult st.last5 5 g.home_team_id rh) 5 g.away_team_id ra,
    season_tot_pf := addZ (addZ st.season_tot_pf hk hs) ak a,
    season_tot_pa := addZ (addZ st.season_tot_pa hk a) ak hs,
    season_cnt := incN (incN st.season_cnt hk) ak }

/-- One iteration of the game loop: a game with a NULL score is skipped
entirely (neither consumed nor folded); a completed game first emits the
home snapshot, then the away snapshot, then folds its result into the
state. -/
def stepGame (st : AggState) (g : Game) : AggState × List TeamGameState :=
  match g.home_score, g.away_score with
  | some hs, some a =>
      (foldGame st g hs a, [emitSnapshot st g g.home_team_id, emitSnapshot st g g.away_team_id])
  | _, _ => (st, [])

/-- The game loop of `backfill_team_game_state`, started from an arbitrary
state.  The periodic `commit_every_games` flushes only batch the inserts;
the list of produced rows is their concatenation. -/
def runAux (st : AggState) : List Game → List TeamGameState
  | [] => []
  | g :: rest => (stepGame st g).2 ++ runAux (stepGame st g).1 rest

/-- All `TeamGameState` rows generated by one `backfill_team_game_state`
run over the (already filtered, `(start_time, id)`-ordered) game list. -/
def backfillRows (gs : List Game) : List TeamGameState :=
  runAux initAggState gs

/-! ### Spec-side recharacterisation of the aggregator

The definitions below express a snapshot directly as a function of the
games strictly preceding it, so that causality claims become equations
between `backfillRows` and these functions. -/

/-- Whether both final scores of a game are present. -/
def completed (g : Game) : Prop :=
  g.home_score.isSome ∧ g.away_score.isSome

instance (g : Game) : Decidable (completed g) := by
  unfold completed; infer_instance

/-- The result a completed game contributes to team `t`'s history (none if
the game is incomplete or `t` is not one of its sides). -/
def resultFor (t : ℕ) (g : Game) : Option TeamResult :=
  match g.home_score, g.away_score with
  | some hs, some a =>
      if t = g.home_team_id then some ⟨hs, a⟩
      else if t = g.away_team_id then some ⟨a, hs⟩
      else none
  | _, _ => none

/-- Chronological list of team `t`'s results over a list of games. -/
def teamResults (t : ℕ) (p : List Game) : List TeamResult :=
  p.filterMap (resultFor t)

/-- Chronological list of team `t`'s results restricted to season `s`. -/
def seasonResults (t s : ℕ) (p : List Game) : List TeamResult :=
  p.filterMap (fun g => if g.season_id = s then resultFor t g else none)

/-- The last `n` elements of a chronological list, newest first (the
content of a `deque(maxlen=n)` after pushing the whole list). -/
def lastN {α : Type} (n : ℕ) (l : List α) : List α :=
  l.reverse.take n

/-- The snapshot for `(team t, game g)` computed directly from an explicit
list `prior` of the games that precede `g`: trailing windows over the last
3/5 of `t`'s completed games in `prior` (any season), games-played and
season sums over `t`'s completed games in `prior` of `g`'s season. -/
def specSnapshot (t : ℕ) (g : Game) (prior : List Game) : TeamGameState :=
  { team_id := t,
    game_id := g.id,
    season_id := g.season_id,
    week := g.week,
    start_time := g.start_time,
    games_played := (seasonResults t g.season_id prior).length,
    off_pts_l3 := avg_points_for_fn (lastN 3 (teamResults t prior)),
    def_pa_l3 := avg_points_against_fn (lastN 3 (teamResults t prior)),
    off_pts_l5 := avg_points_for_fn (lastN 5 (teamResults t prior)),
    def_pa_l5 := avg_points_against_fn (lastN 5 (teamResults t prior)),
    off_pts_season :=
      (((seasonResults t g.season_id prior).map TeamResult.points_for).sum : ℚ),
    def_pa_season :=
      (((seasonResults t g.season_id prior).map TeamResult.points_against).sum : ℚ) }

/-- The aggregator state reached after folding a list of games, expressed
directly: every window and accumulator is a function of the processed
prefix. -/
def stateOf (p : List Game) : AggState :=
  { last3 := fun t => lastN 3 (teamResults t p),
    last5 := fun t => lastN 5 (teamResults t p),
    season_tot_pf := fun k => ((seasonResults k.1 k.2 p).map TeamResult.points_for).sum,
    season_tot_pa := fun k => ((seasonResults k.1 k.2 p).map TeamResult.points_against).sum,
    season_cnt := fun k => (seasonResults k.1 k.2 p).length }

/-- The two snapshot rows a game contributes given an explicit prior-game
list (none if it is incomplete). -/
def emitsAt (g : Game) (prior : List Game) : List TeamGameState :=
  match g.home_score, g.away_score with
  | some _, some _ =>
      [specSnapshot g.home_team_id g prior, specSnapshot g.away_team_id g prior]
  | _, _ => []

/-- Spec-side reference output: each game's snapshots computed from the
running prefix of games before it. -/
def specRows (prior : List Game) : List Game → List TeamGameState
  | [] => []
  | g :: rest => emitsAt g prior ++ specRows (prior ++ [g]) rest

/-- Strict total processing order of `backfill_team_game_state`:
`ORDER BY start_time ASC, id ASC`. -/
def lexLt (g1 g2 : Game) : Prop :=
  g1.start_time < g2.start_time ∨
    (g1.start_time = g2.start_time ∧ g1.id < g2.id)

instance (g1 g2 : Game) : Decidable (lexLt g1 g2) := by
  unfold lexLt; infer_instance

/-- The games of `gs` that strictly precede `g` in the `(start_time, id)`
order. -/
def lexPriors (gs : List Game) (g : Game) : List Game :=
  gs.filter (fun g2 => decide (lexLt g2 g))

/-- Spec-side reference output phrased via the `(start_time, id)` order:
each completed game's two snapshots are computed from exactly the games
that strictly precede it in that order. -/
def specRowsLex (gs : List Game) : List TeamGameState :=
  gs.flatMap (fun g => emitsAt g (lexPriors gs g))

/-- Well-formedness of a game row for the causality analysis: the two
sides are distinct teams. -/
def wfGame (g : Game) : Prop :=
  g.home_team_id ≠ g.away_team_id

instance (g : Game) : Decidable (wfGame g) := by
  unfold wfGame; infer_instance

/-! ### The two post-pass UPDATE statements and the store-level backfill -/

/-- The per-row effect of `backfill_team_game_state_avg_points`: rows with
`games_played > 0` get the three per-game averages from the season sums
(`nullif` keeps the denominator away from zero); the `WHERE` clause leaves
zero-history rows untouched, so their average columns stay NULL.  The
function is total: no division by zero can be executed. -/
def updateAvgPoints (r : TeamGameState) : TeamGameState :=
  if r.games_played > 0 then
    { r with
      avg_points_for := some (r.off_pts_season / (r.games_played : ℚ)),
      avg_points_against := some (r.def_pa_season / (r.games_played : ℚ)),
      avg_point_diff :=
        some (r.off_pts_season / (r.games_played : ℚ) -
          r.def_pa_season / (r.games_played : ℚ)) }
  else r

/-- Table-level `backfill_team_game_state_avg_points` (the UPDATE has no
scope filter: it touches every row of the table). -/
def backfill_team_game_state_avg_points (tbl : List TeamGameState) :
    List TeamGameState :=
  tbl.map updateAvgPoints

/-- One row of the `base` CTE of
`backfill_team_game_state_football_rollups`: a team-game with the
opponent's box-score stats attached.  The joins producing it read the
`TeamGameStats`/`FootballTeamGameStats` tables, whose model files are not
part of the analysed sources; the CTE output is therefore taken as the
input here.  Rows are assumed listed in the window order
(`ORDER BY start_time` within each `(team_id, season_id)` partition is
realised below by filtering on strictly earlier `start_time`). -/
structure StatRow where
  game_id : ℕ
  season_id : ℕ
  start_time : ℕ
  team_id : ℕ
  off_yards : ℚ
  off_turnovers : ℚ
  def_yards_allowed : ℚ
  def_takeaways : ℚ
deriving DecidableEq, Repr

/-- The `wsum` helper: a window sum over the rows of the same
`(team_id, season_id)` partition with strictly earlier `start_time`
(frame `n PRECEDING .. 1 PRECEDING`, or unbounded for the season variant),
`COALESCE`d to `0.0` on the empty frame. -/
def wsum (stats : List StatRow) (col : StatRow → ℚ) (n : Option ℕ)
    (s : StatRow) : ℚ :=
  let priors := stats.filter (fun s2 =>
    decide (s2.team_id = s.team_id ∧ s2.season_id = s.season_id ∧
      s2.start_time < s.start_time))
  match n with
  | some k => ((lastN k priors).map col).sum
  | none => (priors.map col).sum

/-- The `SET` clause of the rollup UPDATE for one state row matched to its
`roll` row `s`. -/
def applyRollup (stats : List StatRow) (s : StatRow) (r : TeamGameState) :
    TeamGameState :=
  { r with
    off_yards_l3 := some (wsum stats StatRow.off_yards (some 3) s),
    off_yards_l5 := some (wsum stats StatRow.off_yards (some 5) s),
    off_yards_season := some (wsum stats StatRow.off_yards none s),
    off_turnovers_l3 := some (wsum stats StatRow.off_turnovers (some 3) s),
    off_turnovers_l5 := some (wsum stats StatRow.off_turnovers (some 5) s),
    off_turnovers_season := some (wsum stats StatRow.off_turnovers none s),
    def_yards_allowed_l3 := some (wsum stats StatRow.def_yards_allowed (some 3) s),
    def_yards_allowed_l5 := some (wsum stats StatRow.def_yards_allowed (some 5) s),
    def_yards_allowed_season := some (wsum stats StatRow.def_yards_allowed none s),
    def_takeaways_l3 := some (wsum stats StatRow.def_takeaways (some 3) s),
    def_takeaways_l5 := some (wsum stats StatRow.def_takeaways (some 5) s),
    def_takeaways_season := some (wsum stats StatRow.def_takeaways none s) }

/-- The per-row effect of the rollup UPDATE: a state row joined to its
`roll` row (same `game_id` and `team_id`) receives the twelve window
sums; unmatched rows are untouched. -/
def updateRollups (stats : List StatRow) (r : TeamGameState) :
    TeamGameState :=
  match stats.find? (fun s =>
      decide (s.game_id = r.game_id ∧ s.team_id = r.team_id)) with
  | none => r
  | some s => applyRollup stats s r

/-- Table-level `backfill_team_game_state_football_rollups`. -/
def backfill_team_game_state_football_rollups (stats : List StatRow)
    (tbl : List TeamGameState) : List TeamGameState :=
  tbl.map (updateRollups stats)

/-- The optional league/season filter applied both to the fetched game
list and to the delete subquery of `backfill_team_game_state`. -/
def gameMatches (league_id season_id : Option ℕ) (g : Game) : Bool :=
  (match league_id with
   | some l => decide (g.league_id = l)
   | none => true) &&
  (match season_id with
   | some s => decide (g.season_id = s)
   | none => true)

/-- The game list fetched by `backfill_team_game_state` (the table `gs` is
taken already in `(start_time, id)` order; `filter` preserves it). -/
def filteredGames (gs : List Game) (league_id season_id : Option ℕ) :
    List Game :=
  gs.filter (gameMatches league_id season_id)

/-- The whole `backfill_team_game_state` entry point at the store level:
if no game matches the filters it returns immediately; otherwise it
deletes every state row whose `game_id` is a filtered game id, inserts the
freshly generated rows, and finally runs the two table-wide UPDATE
passes.  `tbl` is the `team_game_state` table, `gs` the `games` table,
`stats` the rollup base CTE. -/
def backfill_team_game_state (tbl : List TeamGameState) (gs : List Game)
    (stats : List StatRow) (league_id season_id : Option ℕ) :
    List TeamGameState :=
  let games := filteredGames gs league_id season_id
  if games.isEmpty then tbl
  else
    let ids := games.map Game.id
    ((tbl.filter (fun r => decide (r.game_id ∉ ids))) ++ backfillRows games).map
      (fun r => updateRollups stats (updateAvgPoints r))

/-! ### Training-row assembly (`analytics/training_data.py`) -/

/-- The Python `shrink` helper: `w * value` with `w = gp / (gp + k)`. -/
def shrink (value : ℚ) (games_played : ℕ) (k : ℚ) : ℚ :=
  (games_played / (games_played + k)) * value

/-- The `shrink_sql` helper: both the value and the games-played operand
are `COALESCE`d before the weight is formed. -/
def shrink_sql (value : Option ℚ) (games_played : Option ℕ) (k : ℚ) : ℚ :=
  let gp : ℚ := ((games_played.getD 0 : ℕ) : ℚ)
  (gp / (gp + k)) * value.getD 0

/-- The `z` helper: `COALESCE(x, 0)`. -/
def z (x : Option ℚ) : ℚ :=
  x.getD 0

/-- SQL subtraction on nullable operands (NULL propagates). -/
def sqlSub (x y : Option ℚ) : Option ℚ :=
  match x, y with
  | some xv, some yv => some (xv - yv)
  | _, _ => none

/-- SQL division on nullable operands (NULL propagates; the callers below
only build non-NULL denominators via `nullif`, so the division is never by
zero). -/
def sqlDiv (x y : Option ℚ) : Option ℚ :=
  match x, y with
  | some xv, some yv => some (xv / yv)
  | _, _ => none

/-- The `nullif(cast(games_played as Float), 0.0)` denominator. -/
def nullifZero (gp : ℕ) : Option ℚ :=
  if gp = 0 then none else some (gp : ℚ)

/-- The correlated scalar subquery behind `league_avg_pts_season_to_date`:
`AVG(home_score + away_score)` over the games of the same season with
strictly earlier `start_time` and both scores present; NULL (`none`) when
no such game exists. -/
def leagueAvgPtsToDate (games : List Game) (g : Game) : Option ℚ :=
  let prior := games.filter (fun g2 =>
    decide (g2.season_id = g.season_id ∧ g2.start_time < g.start_time ∧
      g2.home_score.isSome ∧ g2.away_score.isSome))
  if prior.isEmpty then none
  else
    some
      ((((prior.map (fun g2 => g2.home_score.getD 0 + g2.away_score.getD 0)).sum : ℤ) : ℚ) /
        (prior.length : ℚ))

/-- One result row of `build_training_rows_stmt`, one column per labelled
select expression. -/
structure TrainRow where
  game_id : ℕ
  start_time : ℕ
  season_id : ℕ
  season_year : ℤ
  week : Option ℕ
  home_team_id : ℕ
  away_team_id : ℕ
  home_games_played : ℕ
  away_games_played : ℕ
  home_avg_points_for : Option ℚ
  home_avg_points_against : Option ℚ
  home_avg_point_diff : Option ℚ
  away_avg_points_for : Option ℚ
  away_avg_points_against : Option ℚ
  away_avg_point_diff : Option ℚ
  point_diff : ℚ
  home_off_pts_l3 : ℚ
  home_def_pa_l5 : ℚ
  away_off_pts_l3 : ℚ
  away_def_pa_l5 : ℚ
  matchup_edge_l3_l5 : ℚ
  season_strength : ℚ
  league_avg_pts_season_to_date : Option ℚ
  off_yards_edge_l3_l5 : Option ℚ
  turnover_edge_l3_l5 : ℚ
deriving DecidableEq, Repr

/-- The select-list of `build_training_rows_stmt` evaluated on one joined
(game, season, home state, away state) tuple with final scores
`hs` / `a`. -/
def mkTrainRow (games : List Game) (g : Game) (hs a : ℤ) (sn : Season)
    (h aw : TeamGameState) : TrainRow :=
  let games_min : ℕ := min h.games_played aw.games_played
  let matchup_edge_raw : ℚ :=
    (h.off_pts_l3 - aw.def_pa_l5) - (aw.off_pts_l3 - h.def_pa_l5)
  let turnover_edge_raw : ℚ :=
    (z aw.off_turnovers_l3 - z h.def_takeaways_l5) -
      (z h.off_turnovers_l3 - z aw.def_takeaways_l5)
  let turnover_edge_shrunk : ℚ :=
    shrink_sql (some turnover_edge_raw) (some games_min) 3
  let denom_home := nullifZero h.games_played
  let denom_away := nullifZero aw.games_played
  let home_avg_points_for := sqlDiv (some h.off_pts_season) denom_home
  let home_avg_points_against := sqlDiv (some h.def_pa_season) denom_home
  let home_avg_point_diff := sqlSub home_avg_points_for home_avg_points_against
  let away_avg_points_for := sqlDiv (some aw.off_pts_season) denom_away
  let away_avg_points_against := sqlDiv (some aw.def_pa_season) denom_away
  let away_avg_point_diff := sqlSub away_avg_points_for away_avg_points_against
  { game_id := g.id,
    start_time := g.start_time,
    season_id := g.season_id,
    season_year := sn.year,
    week := g.week,
    home_team_id := g.home_team_id,
    away_team_id := g.away_team_id,
    home_games_played := h.games_played,
    away_games_played := aw.games_played,
    home_avg_points_for := home_avg_points_for,
    home_avg_points_against := home_avg_points_against,
    home_avg_point_diff := home_avg_point_diff,
    away_avg_points_for := away_avg_points_for,
    away_avg_points_against := away_avg_points_against,
    away_avg_point_diff := away_avg_point_diff,
    point_diff := (hs : ℚ) - (a : ℚ),
    home_off_pts_l3 := h.off_pts_l3,
    home_def_pa_l5 := h.def_pa_l5,
    away_off_pts_l3 := aw.off_pts_l3,
    away_def_pa_l5 := aw.def_pa_l5,
    matchup_edge_l3_l5 := shrink_sql (some matchup_edge_raw) (some games_min) 3,
    season_strength :=
      shrink_sql home_avg_point_diff (some h.games_played) 6 -
        shrink_sql away_avg_point_diff (some aw.games_played) 6,
    league_avg_pts_season_to_date := leagueAvgPtsToDate games g,
    off_yards_edge_l3_l5 :=
      sqlSub (sqlSub h.off_yards_l3 aw.def_yards_allowed_l5)
        (sqlSub aw.off_yards_l3 h.def_yards_allowed_l5),
    turnover_edge_l3_l5 := min 4 (max (-4) turnover_edge_shrunk) }

/-- The full `build_training_rows_stmt` result set: games with both final
scores, inner-joined to their `Season` row and to the home/away
`TeamGameState` rows (on team id and game id).  The games list stands for
the `games` table already in the statement's `(start_time, id)` output
order. -/
def build_training_rows (games : List Game) (seasons : List Season)
    (states : List TeamGameState) : List TrainRow :=
  games.flatMap (fun g =>
    match g.home_score, g.away_score with
    | some hs, some a =>
      (seasons.filter (fun sn => decide (sn.id = g.season_id))).flatMap (fun sn =>
        (states.filter (fun st =>
            decide (st.team_id = g.home_team_id ∧ st.game_id = g.id))).flatMap (fun h =>
          (states.filter (fun st =>
              decide (st.team_id = g.away_team_id ∧ st.game_id = g.id))).map (fun aw =>
            mkTrainRow games g hs a sn h aw)))
    | _, _ => [])

/-- The error a Python `float(None)` conversion raises. -/
inductive PyError where
  | typeError
deriving DecidableEq, Repr

/-- The `GameTrainingRow` dataclass of `analytics/training_data.py` (the
one `fetch_training_rows` builds). -/
structure GameTrainingRow where
  game_id : ℕ
  start_time : ℕ
  season_id : ℕ
  week : Option ℕ
  home_team_id : ℕ
  away_team_id : ℕ
  point_diff : ℚ
  home_avg_points_for : Option ℚ
  home_avg_points_against : Option ℚ
  home_avg_point_diff : Option ℚ
  away_avg_points_for : Option ℚ
  away_avg_points_against : Option ℚ
  away_avg_point_diff : Option ℚ
  matchup_edge_l3_l5 : ℚ
  season_strength_pg : ℚ
  league_avg_pts_season_to_date : ℚ
  off_yards_edge_l3_l5 : Option ℚ
  turnover_edge_l3_l5 : ℚ
deriving DecidableEq, Repr

/-- Conversion of one mapping row into a `GameTrainingRow`: every field is
passed through except `league_avg_pts_season_to_date`, which goes through
`float(...)` and raises `TypeError` on NULL. -/
def toGameTrainingRow (r : TrainRow) : Except PyError GameTrainingRow :=
  match r.league_avg_pts_season_to_date with
  | none => Except.error PyError.typeError
  | some q =>
    Except.ok
      { game_id := r.game_id,
        start_time := r.start_time,
        season_id := r.season_id,
        week := r.week,
        home_team_id := r.home_team_id,
        away_team_id := r.away_team_id,
        point_diff := r.point_diff,
        home_avg_points_for := r.home_avg_points_for,
        home_avg_points_against := r.home_avg_points_against,
        home_avg_point_diff := r.home_avg_point_diff,
        away_avg_points_for := r.away_avg_points_for,
        away_avg_points_against := r.away_avg_points_against,
        away_avg_point_diff := r.away_avg_point_diff,
        matchup_edge_l3_l5 := r.matchup_edge_l3_l5,
        season_strength_pg := r.season_strength,
        league_avg_pts_season_to_date := q,
        off_yards_edge_l3_l5 := r.off_yards_edge_l3_l5,
        turnover_edge_l3_l5 := r.turnover_edge_l3_l5 }

/-- The list comprehension of `fetch_training_rows`: rows are converted in
order and the first `TypeError` aborts the whole call. -/
def fetchAux : List TrainRow → Except PyError (List GameTrainingRow)
  | [] => Except.ok []
  | r :: rest =>
    match toGameTrainingRow r with
    | Except.error e => Except.error e
    | Except.ok v =>
      match fetchAux rest with
      | Except.error e => Except.error e
      | Except.ok vs => Except.ok (v :: vs)

/-- The `fetch_training_rows` function: execute the statement with a row
limit (default 25 in the source) and convert each mapping row. -/
def fetch_training_rows (games : List Game) (seasons : List Season)
    (states : List TeamGameState) (limit : ℕ) :
    Except PyError (List GameTrainingRow) :=
  fetchAux ((build_training_rows games seasons states).take limit)

/-! ### The `extract_xy` feature-matrix guard (`analytics/baseline.py`) -/

/-- A numpy float64 cell: a finite number or one of the non-finite
values.  `np.array(..., dtype=float)` turns a Python `None` into `nan`. -/
inductive NpVal where
  | num (q : ℚ)
  | nan
  | inf
  | ninf
deriving DecidableEq, Repr

/-- The `np.isfinite` test. -/
def NpVal.isFinite : NpVal → Bool
  | NpVal.num _ => true
  | _ => false

/-- The numeric content of a finite cell (only read on finite cells). -/
def NpVal.toFloatQ : NpVal → ℚ
  | NpVal.num q => q
  | _ => 0

/-- `np.array` conversion of one nullable feature. -/
def npOfOpt : Option ℚ → NpVal
  | none => NpVal.nan
  | some q => NpVal.num q

/-- The five feature cells `extract_xy` reads from one training row, in
column order: `matchup_edge_l3_l5`, `off_yards_edge_l3_l5`,
`turnover_edge_l3_l5`, `season_strength_pg`,
`league_avg_pts_season_to_date`. -/
def featureVals (r : GameTrainingRow) : List NpVal :=
  [NpVal.num r.matchup_edge_l3_l5,
   npOfOpt r.off_yards_edge_l3_l5,
   NpVal.num r.turnover_edge_l3_l5,
   NpVal.num r.season_strength_pg,
   NpVal.num r.league_avg_pts_season_to_date]

/-- Index of the first non-finite cell of one matrix row. -/
def firstBadInRow : List NpVal → Option ℕ
  | [] => none
  | v :: rest =>
    if v.isFinite then (firstBadInRow rest).map (fun j => j + 1)
    else some 0

/-- Row-major position of the first non-finite cell of the matrix
(`bad[0]` of `np.argwhere(~np.isfinite(X))`). -/
def firstBadCell : List (List NpVal) → Option (ℕ × ℕ)
  | [] => none
  | row :: rest =>
    match firstBadInRow row with
    | some j => some (0, j)
    | none => (firstBadCell rest).map (fun p => (p.1 + 1, p.2))

/-- The diagnostic `ValueError` payload of `extract_xy`: the offending row
index, column index, and the raw feature values of that row (the message
interpolates all five). -/
structure NonFiniteErr where
  row : ℕ
  col : ℕ
  raw : List NpVal
deriving DecidableEq, Repr

/-- The `extract_xy` helper of `run_baseline_point_diff`: builds the
feature matrix and the target vector; if any cell is non-finite it raises
with the first offending position and that row's raw feature values,
otherwise it returns every row unchanged (no dropping, no imputation). -/
def extract_xy (rows : List GameTrainingRow) :
    Except NonFiniteErr (List (List ℚ) × List ℚ) :=
  let X := rows.map featureVals
  match firstBadCell X with
  | some p => Except.error ⟨p.1, p.2, X.getD p.1 []⟩
  | none =>
    Except.ok (X.map (fun row => row.map NpVal.toFloatQ),
      rows.map GameTrainingRow.point_diff)

/-! ### Claim-side definitions

These restate feature definitions in the words of the specification, for
comparison with the source-derived definitions above. -/

/-- Claim-side turnover edge: each side's takeaways forced minus its own
turnovers committed (over the trailing windows the source columns carry),
differenced home minus away, shrunk by `w = gp/(gp+3)` with `gp` the
lesser games played, clamped to `[-4, 4]`. -/
def claimTurnoverEdge (h aw : TeamGameState) : ℚ :=
  let raw : ℚ :=
    (z h.def_takeaways_l5 - z h.off_turnovers_l3) -
      (z aw.def_takeaways_l5 - z aw.off_turnovers_l3)
  min 4 (max (-4)
    (shrink_sql (some raw) (some (min h.games_played aw.games_played)) 3))

/-- Amended turnover edge: the cross-matchup form the source actually
computes, mirroring `matchup_edge` — away turnovers committed (last 3)
against home takeaways forced (last 5), minus the home-committed /
away-forced mirror — with NULLs coalesced to 0, shrunk by `w = gp/(gp+3)`
with `gp` the lesser games played, clamped to `[-4, 4]`. -/
def amendedTurnoverEdge (h aw : TeamGameState) : ℚ :=
  let raw : ℚ :=
    (z aw.off_turnovers_l3 - z h.def_takeaways_l5) -
      (z h.off_turnovers_l3 - z aw.def_takeaways_l5)
  min 4 (max (-4)
    (shrink_sql (some raw) (some (min h.games_played aw.games_played)) 3))

/-- Claim-side scope of the league average for game `g`: exactly the
completed games of `g`'s season with kickoff strictly before `g`'s. -/
def leaguePriorSet (games : List Game) (g : Game) : List Game :=
  games.filter (fun g2 =>
    decide (completed g2 ∧ g2.season_id = g.season_id ∧
      g2.start_time < g.start_time))

/-- Claim-side league average: mean of (home score + away score) over
`leaguePriorSet` (undefined/none on the empty set). -/
def specLeagueMean (games : List Game) (g : Game) : Option ℚ :=
  let prior := leaguePriorSet games g
  if prior.isEmpty then none
  else
    some
      ((((prior.map (fun g2 => g2.home_score.getD 0 + g2.away_score.getD 0)).sum : ℤ) : ℚ) /
        (prior.length : ℚ))

/-! ### Concrete fixtures used by the witness theorems -/

/-- A one-season, one-league fixture season. -/
def season1 : Season := ⟨1, 1, 2020⟩

/-- The following season of the same league. -/
def season2 : Season := ⟨2, 1, 2021⟩

/-- Game 1 of the fixture history: team 100 hosts team 200, 20–10. -/
def gA1 : Game := ⟨1, 1, 1, some 1, 10, 100, 200, some 20, some 10⟩

/-- Game 2: team 200 hosts team 100, 17–14. -/
def gA2 : Game := ⟨2, 1, 1, some 2, 20, 200, 100, some 17, some 14⟩

/-- Game 3: team 100 hosts team 200, 24–3. -/
def gA3 : Game := ⟨3, 1, 1, some 3, 30, 100, 200, some 24, some 3⟩

/-- Three completed same-season games in `(start_time, id)` order. -/
def exGames : List Game := [gA1, gA2, gA3]

/-- Team 100's first game of the following season, against team 300. -/
def gB : Game := ⟨4, 1, 2, some 1, 40, 100, 300, some 7, some 9⟩

/-- The fixture history extended across a season boundary. -/
def exGames2 : List Game := [gA1, gA2, gA3, gB]

/-- A season-one base-CTE row for team 100. -/
def statS1 : StatRow := ⟨1, 1, 10, 100, 300, 1, 250, 2⟩

/-- Team 100's first season-two base-CTE row. -/
def statS2 : StatRow := ⟨4, 2, 40, 100, 320, 0, 200, 1⟩

/-- A handcrafted home state row whose only nonzero rollup is
`def_takeaways_l5 = 2`. -/
def cexHomeState : TeamGameState :=
  { team_id := 100, game_id := 1, season_id := 1, week := some 1,
    start_time := 10, games_played := 3, off_pts_l3 := 0, def_pa_l3 := 0,
    off_pts_l5 := 0, def_pa_l5 := 0, off_pts_season := 0, def_pa_season := 0,
    def_takeaways_l5 := some 2 }

/-- The matching away state row, identically zero. -/
def cexAwayState : TeamGameState :=
  { team_id := 200, game_id := 1, season_id := 1, week := some 1,
    start_time := 10, games_played := 3, off_pts_l3 := 0, def_pa_l3 := 0,
    off_pts_l5 := 0, def_pa_l5 := 0, off_pts_season := 0, def_pa_season := 0 }

/-- Team 100's pre-game state before `gA3` (as the backfill would emit
it), written out literally. -/
def h3 : TeamGameState :=
  { team_id := 100, game_id := 3, season_id := 1, week := some 3,
    start_time := 30, games_played := 2, off_pts_l3 := 17, def_pa_l3 := 27/2,
    off_pts_l5 := 17, def_pa_l5 := 27/2, off_pts_season := 34,
    def_pa_season := 27 }

/-- Team 200's pre-game state before `gA3`. -/
def aw3 : TeamGameState :=
  { team_id := 200, game_id := 3, season_id := 1, week := some 3,
    start_time := 30, games_played := 2, off_pts_l3 := 27/2, def_pa_l3 := 17,
    off_pts_l5 := 27/2, def_pa_l5 := 17, off_pts_season := 27,
    def_pa_season := 34 }

/-- The fixture training row for `gA3` (the game at t3). -/
def fixtureRow3 : TrainRow :=
  mkTrainRow exGames gA3 24 3 season1 h3 aw3

/-- The single training row of the counterexample join. -/
def cexRow : TrainRow :=
  mkTrainRow [gA1] gA1 20 10 season1 cexHomeState cexAwayState

/-- A fully finite assembled training row. -/
def goodGTR : GameTrainingRow :=
  { game_id := 1, start_time := 10, season_id := 1, week := some 1,
    home_team_id := 100, away_team_id := 200, point_diff := 10,
    home_avg_points_for := none, home_avg_points_against := none,
    home_avg_point_diff := none, away_avg_points_for := none,
    away_avg_points_against := none, away_avg_point_diff := none,
    matchup_edge_l3_l5 := 1, season_strength_pg := 2,
    league_avg_pts_season_to_date := 30, off_yards_edge_l3_l5 := some 5,
    turnover_edge_l3_l5 := 0 }

/-- The same row with a NULL yardage edge (numpy turns it into `nan`). -/
def badGTR : GameTrainingRow :=
  { goodGTR with off_yards_edge_l3_l5 := none }

/-! ### The aggregator invariant -/

lemma stateOf_nil : stateOf [] = initAggState := rfl

lemma emitSnapshot_stateOf (p : List Game) (g : Game) (t : ℕ) :
    emitSnapshot (stateOf p) g t = specSnapshot t g p := rfl

lemma teamResults_append (t : ℕ) (p : List Game) (g : Game) :
    teamResults t (p ++ [g]) = teamResults t p ++ (resultFor t g).toList := by
  cases h : resultFor t g <;>
    simp [teamResults, List.filterMap_append, h]

lemma seasonResults_append (t s : ℕ) (p : List Game) (g : Game) :
    seasonResults t s (p ++ [g]) =
      seasonResults t s p ++
        (if g.season_id = s then (resultFor t g).toList else []) := by
  by_cases hseason : g.season_id = s
  · cases h : resultFor t g <;>
      simp [seasonResults, List.filterMap_append, h, hseason]
  · simp [seasonResults, List.filterMap_append, hseason]

lemma lastN_append {α : Type} (n : ℕ) (xs : List α) (r : α) :
    lastN n (xs ++ [r]) = (r :: lastN n xs).take n := by
  unfold lastN
  rw [List.reverse_append]
  cases n with
  | zero => simp
  | succ m => simp [List.take_take, Nat.min_eq_left (Nat.le_succ m)]

lemma resultFor_home (g : Game) (hs a : ℤ)
    (hh : g.home_score = some hs) (ha : g.away_score = some a) :
    resultFor g.home_team_id g = some ⟨hs, a⟩ := by
  simp [resultFor, hh, ha]

lemma resultFor_away (g : Game) (hs a : ℤ)
    (hh : g.home_score = some hs) (ha : g.away_score = some a)
    (hwf : wfGame g) :
    resultFor g.away_team_id g = some ⟨a, hs⟩ := by
  have : g.away_team_id ≠ g.home_team_id := (Ne.symm hwf)
  simp [resultFor, hh, ha, this]

lemma resultFor_other (g : Game) (t : ℕ)
    (h1 : t ≠ g.home_team_id) (h2 : t ≠ g.away_team_id) :
    resultFor t g = none := by
  cases hh : g.home_score <;> cases ha : g.away_score <;>
    simp [resultFor, hh, ha, h1, h2]

lemma resultFor_incomplete (g : Game) (t : ℕ) (h : ¬ completed g) :
    resultFor t g = none := by
  cases hh : g.home_score <;> cases ha : g.away_score <;>
    simp_all [resultFor, completed]

lemma stateOf_append_incomplete (p : List Game) (g : Game)
    (h : ¬ completed g) :
    stateOf (p ++ [g]) = stateOf p := by
  have hres : ∀ t, resultFor t g = none := fun t => resultFor_incomplete g t h
  unfold stateOf
  ext1 <;> funext k <;>
    simp [teamResults_append, seasonResults_append, hres]

lemma foldGame_stateOf (p : List Game) (g : Game) (hs a : ℤ)
    (hh : g.home_score = some hs) (ha : g.away_score = some a)
    (hwf : wfGame g) :
    foldGame (stateOf p) g hs a = stateOf (p ++ [g]) := by
  have hrh := resultFor_home g hs a hh ha
  have hra := resultFor_away g hs a hh ha hwf
  have hne : g.home_team_id ≠ g.away_team_id := hwf
  unfold foldGame stateOf
  ext1
  · -- last3
    funext t
    by_cases h1 : t = g.away_team_id
    · subst h1
      simp [pushResult, updFn, Ne.symm hne, teamResults_append, hra,
        lastN_append, pushWindow, stateOf]
    · by_cases h2 : t = g.home_team_id
      · subst h2
        simp [pushResult, updFn, h1, teamResults_append, hrh,
          lastN_append, pushWindow, stateOf]
      · simp [pushResult, updFn, h1, h2, teamResults_append,
          resultFor_other g t h2 h1, stateOf]
  · -- last5
    funext t
    by_cases h1 : t = g.away_team_id
    · subst h1
      simp [pushResult, updFn, Ne.symm hne, teamResults_append, hra,
        lastN_append, pushWindow, stateOf]
    · by_cases h2 : t = g.home_team_id
      · subst h2
        simp [pushResult, updFn, h1, teamResults_append, hrh,
          lastN_append, pushWindow, stateOf]
      · simp [pushResult, updFn, h1, h2, teamResults_append,
          resultFor_other g t h2 h1, stateOf]
  · -- season_tot_pf
    funext k
    obtain ⟨t, s⟩ := k
    have hkne : (g.away_team_id, g.season_id) ≠ (g.home_team_id, g.season_id) := by
      simp [Ne.symm hne]
    by_cases h1 : (t, s) = (g.away_team_id, g.season_id)
    · obtain ⟨ht, hsid⟩ := Prod.mk.injEq .. ▸ h1
      subst ht; subst hsid
      simp [addZ, hkne, seasonResults_append, hra, stateOf]
    · by_cases h2 : (t, s) = (g.home_team_id, g.season_id)
      · obtain ⟨ht, hsid⟩ := Prod.mk.injEq .. ▸ h2
        subst ht; subst hsid
        simp [addZ, h1, seasonResults_append, hrh, stateOf]
      · have hz :
            (if g.season_id = s then (resultFor t g).toList else []) = [] := by
          by_cases hsid : g.season_id = s
          · subst hsid
            have ht1 : t ≠ g.home_team_id := fun h => h2 (by simp [h])
            have ht2 : t ≠ g.away_team_id := fun h => h1 (by simp [h])
            simp [resultFor_other g t ht1 ht2]
          · simp [hsid]
        simp [addZ, h1, h2, seasonResults_append, hz, stateOf]
  · -- season_tot_pa
    funext k
    obtain ⟨t, s⟩ := k
    have hkne : (g.away_team_id, g.season_id) ≠ (g.home_team_id, g.season_id) := by
      simp [Ne.symm hne]
    by_cases h1 : (t, s) = (g.away_team_id, g.season_id)
    · obtain ⟨ht, hsid⟩ := Prod.mk.injEq .. ▸ h1
      subst ht; subst hsid
      simp [addZ, hkne, seasonResults_append, hra, stateOf]
    · by_cases h2 : (t, s) = (g.home_team_id, g.season_id)
      · obtain ⟨ht, hsid⟩ := Prod.mk.injEq .. ▸ h2
        subst ht; subst hsid
        simp [addZ, h1, seasonResults_append, hrh, stateOf]
      · have hz :
            (if g.season_id = s then (resultFor t g).toList else []) = [] := by
          by_cases hsid : g.season_id = s
          · subst hsid
            have ht1 : t ≠ g.home_team_id := fun h => h2 (by simp [h])
            have ht2 : t ≠ g.away_team_id := fun h => h1 (by simp [h])
            simp [resultFor_other g t ht1 ht2]
          · simp [hsid]
        simp [addZ, h1, h2, seasonResults_append, hz, stateOf]
  · -- season_cnt
    funext k
    obtain ⟨t, s⟩ := k
    have hkne : (g.away_team_id, g.season_id) ≠ (g.home_team_id, g.season_id) := by
      simp [Ne.symm hne]
    by_cases h1 : (t, s) = (g.away_team_id, g.season_id)
    · obtain ⟨ht, hsid⟩ := Prod.mk.injEq .. ▸ h1
      subst ht; subst hsid
      simp [incN, hkne, seasonResults_append, hra, stateOf]
    · by_cases h2 : (t, s) = (g.home_team_id, g.season_id)
      · obtain ⟨ht, hsid⟩ := Prod.mk.injEq .. ▸ h2
        subst ht; subst hsid
        simp [incN, h1, seasonResults_append, hrh, stateOf]
      · have hz :
            (if g.season_id = s then (resultFor t g).toList else []) = [] := by
          by_cases hsid : g.season_id = s
          · subst hsid
            have ht1 : t ≠ g.home_team_id := fun h => h2 (by simp [h])
            have ht2 : t ≠ g.away_team_id := fun h => h1 (by simp [h])
            simp [resultFor_other g t ht1 ht2]
          · simp [hsid]
        simp [incN, h1, h2, seasonResults_append, hz, stateOf]

lemma runAux_stateOf :
    ∀ (gs p : List Game), (∀ g ∈ gs, wfGame g) →
      runAux (stateOf p) gs = specRows p gs := by
  intro gs
  induction gs with
  | nil => intro p _; rfl
  | cons g rest ih =>
    intro p hwf
    have hwfg : wfGame g := hwf g (by simp)
    have hwfr : ∀ x ∈ rest, wfGame x := fun x hx => hwf x (by simp [hx])
    cases hh : g.home_score with
    | none =>
      have hst : stepGame (stateOf p) g = (stateOf p, []) := by
        simp [stepGame, hh]
      have hinc : ¬ completed g := by simp [completed, hh]
      rw [runAux, hst]
      simp only [List.nil_append]
      rw [specRows]
      have hemit : emitsAt g p = [] := by simp [emitsAt, hh]
      rw [hemit, List.nil_append, ← stateOf_append_incomplete p g hinc]
      exact ih (p ++ [g]) hwfr
    | some hs =>
      cases ha : g.away_score with
      | none =>
        have hst : stepGame (stateOf p) g = (stateOf p, []) := by
          simp [stepGame, hh, ha]
        have hinc : ¬ completed g := by simp [completed, ha]
        rw [runAux, hst]
        simp only [List.nil_append]
        rw [specRows]
        have hemit : emitsAt g p = [] := by simp [emitsAt, hh, ha]
        rw [hemit, List.nil_append, ← stateOf_append_incomplete p g hinc]
        exact ih (p ++ [g]) hwfr
      | some a =>
        have hst : stepGame (stateOf p) g =
            (foldGame (stateOf p) g hs a,
             [emitSnapshot (stateOf p) g g.home_team_id,
              emitSnapshot (stateOf p) g g.away_team_id]) := by
          simp [stepGame, hh, ha]
        rw [runAux, hst]
        rw [specRows]
        have hemit : emitsAt g p =
            [specSnapshot g.home_team_id g p, specSnapshot g.away_team_id g p] := by
          simp [emitsAt, hh, ha]
        rw [hemit]
        simp only [emitSnapshot_stateOf]
        congr 1
        rw [foldGame_stateOf p g hs a hh ha hwfg]
        exact ih (p ++ [g]) hwfr

lemma backfillRows_eq_specRows (gs : List Game)
    (hwf : ∀ g ∈ gs, wfGame g) :
    backfillRows gs = specRows [] gs := by
  rw [backfillRows, ← stateOf_nil]
  exact runAux_stateOf gs [] hwf

lemma lexLt_irrefl (g : Game) : ¬ lexLt g g := by
  simp [lexLt]

lemma lexLt_asymm {g1 g2 : Game} (h : lexLt g1 g2) : ¬ lexLt g2 g1 := by
  unfold lexLt at h ⊢
  omega

lemma lexPriors_split (p rest : List Game) (g : Game)
    (hpw : (p ++ g :: rest).Pairwise lexLt) :
    lexPriors (p ++ g :: rest) g = p := by
  unfold lexPriors
  rw [List.filter_append]
  have hparts := List.pairwise_append.mp hpw
  have h1 : p.filter (fun g2 => decide (lexLt g2 g)) = p := by
    apply List.filter_eq_self.mpr
    intro x hx
    exact decide_eq_true (hparts.2.2 x hx g (by simp))
  have h2 : (g :: rest).filter (fun g2 => decide (lexLt g2 g)) = [] := by
    apply List.filter_eq_nil_iff.mpr
    intro x hx
    rcases List.mem_cons.mp hx with hx | hx
    · subst hx
      simpa using lexLt_irrefl x
    · have hgx : lexLt g x := (List.pairwise_cons.mp hparts.2.1).1 x hx
      simpa using lexLt_asymm hgx
  rw [h1, h2, List.append_nil]

lemma specRows_eq_lex_aux (L : List Game) (hL : L.Pairwise lexLt) :
    ∀ (rest p : List Game), L = p ++ rest →
      specRows p rest = rest.flatMap (fun g => emitsAt g (lexPriors L g)) := by
  intro rest
  induction rest with
  | nil => intro p _; rfl
  | cons g rest' ih =>
    intro p hsplit
    rw [specRows, List.flatMap_cons]
    have hpri : lexPriors L g = p := by
      rw [hsplit]
      exact lexPriors_split p rest' g (hsplit ▸ hL)
    rw [hpri]
    congr 1
    exact ih (p ++ [g]) (by rw [hsplit]; simp)

/-- Master helper: on a `(start_time, id)`-sorted game list with distinct
home/away sides, the backfill output is exactly the per-game snapshots
computed from each game's strict lex-predecessors. -/
lemma backfillRows_eq_specRowsLex (gs : List Game)
    (hwf : ∀ g ∈ gs, wfGame g) (hsort : gs.Pairwise lexLt) :
    backfillRows gs = specRowsLex gs := by
  rw [backfillRows_eq_specRows gs hwf, specRowsLex]
  exact specRows_eq_lex_aux gs hsort gs [] rfl

/-! ### Claim theorems -/

/-- C1: for a `(start_time, id)`-sorted game history with distinct sides,
every snapshot emitted by the backfill for game `G` and team `T` equals
the snapshot computed from exactly the completed games of `T` that
strictly precede `G` in that order (`specSnapshot` over `lexPriors`):
trailing windows over the last 3/5 such games, games-played and season
sums additionally restricted to `G`'s season.  Moreover no game is among
its own priors, so `G`'s result enters the windows and accumulators only
after both of `G`'s snapshots are emitted. -/
theorem backfill_snapshot_causality (gs : List Game)
    (hwf : ∀ g ∈ gs, wfGame g) (hsort : gs.Pairwise lexLt) :
    backfillRows gs = specRowsLex gs ∧ ∀ g : Game, g ∉ lexPriors gs g := by
  refine ⟨backfillRows_eq_specRowsLex gs hwf hsort, ?_⟩
  intro g hmem
  exact lexLt_irrefl g (of_decide_eq_true (List.mem_filter.mp hmem).2)

/-- Witness for C1 on the concrete three-game fixture history. -/
theorem backfill_snapshot_causality_witness :
    backfillRows exGames = specRowsLex exGames ∧ gA1 ∉ lexPriors exGames gA1 := by
  have h := backfill_snapshot_causality exGames (by decide) (by decide)
  exact ⟨h.1, h.2 gA1⟩

/-- C7 counterexample: at raw value 0 the shrunk value is 0 for every
games-played count, so increasing games-played does not strictly increase
the absolute shrunk value. -/
theorem shrink_monotone_counterexample :
    shrink 0 1 6 = 0 ∧ shrink 0 2 6 = 0 ∧
      ¬ |shrink 0 1 6| < |shrink 0 2 6| := by
  norm_num [shrink]

/-- C7 (amended): for any positive smoothing constant the shrink weight
`gp/(gp+k)` is strictly increasing in games played, and for a fixed
nonzero raw value increasing games played strictly increases the absolute
shrunk value, which stays strictly below the unshrunk absolute value. -/
theorem shrink_strictly_monotone (v k : ℚ) (gp1 gp2 : ℕ)
    (hk : 0 < k) (hlt : gp1 < gp2) (hv : v ≠ 0) :
    ((gp1 : ℚ) / ((gp1 : ℚ) + k) < (gp2 : ℚ) / ((gp2 : ℚ) + k)) ∧
      |shrink v gp1 k| < |shrink v gp2 k| ∧
      |shrink v gp2 k| < |v| := by
  have h1 : (0 : ℚ) < (gp1 : ℚ) + k := by positivity
  have h2 : (0 : ℚ) < (gp2 : ℚ) + k := by positivity
  have hlt' : (gp1 : ℚ) < (gp2 : ℚ) := by exact_mod_cast hlt
  have hw : (gp1 : ℚ) / ((gp1 : ℚ) + k) < (gp2 : ℚ) / ((gp2 : ℚ) + k) := by
    rw [div_lt_div_iff₀ h1 h2]
    nlinarith
  have habs1 : |shrink v gp1 k| = ((gp1 : ℚ) / ((gp1 : ℚ) + k)) * |v| := by
    rw [shrink, abs_mul, abs_of_nonneg (by positivity)]
  have habs2 : |shrink v gp2 k| = ((gp2 : ℚ) / ((gp2 : ℚ) + k)) * |v| := by
    rw [shrink, abs_mul, abs_of_nonneg (by positivity)]
  have hvpos : 0 < |v| := abs_pos.mpr hv
  refine ⟨hw, ?_, ?_⟩
  · rw [habs1, habs2]
    exact mul_lt_mul_of_pos_right hw hvpos
  · rw [habs2]
    have hw1 : (gp2 : ℚ) / ((gp2 : ℚ) + k) < 1 := (div_lt_one h2).mpr (by linarith)
    calc ((gp2 : ℚ) / ((gp2 : ℚ) + k)) * |v| < 1 * |v| :=
          mul_lt_mul_of_pos_right hw1 hvpos
      _ = |v| := one_mul _

/-- Witness for the amended C7 at value 2, k = 6, games played 1 < 4. -/
theorem shrink_strictly_monotone_witness :
    |shrink 2 1 6| < |shrink 2 4 6| ∧ |shrink 2 4 6| < |(2 : ℚ)| := by
  have h := shrink_strictly_monotone 2 6 1 4 (by norm_num) (by norm_num) (by norm_num)
  exact ⟨h.2.1, h.2.2⟩

/-- Every training row arises from one completed game joined to a season
row and its two state rows, and equals `mkTrainRow` on that tuple. -/
lemma build_training_rows_shape {games : List Game} {seasons : List Season}
    {states : List TeamGameState} {r : TrainRow}
    (hr : r ∈ build_training_rows games seasons states) :
    ∃ g sn h aw hs a, g ∈ games ∧ sn ∈ seasons ∧ h ∈ states ∧ aw ∈ states ∧
      g.home_score = some hs ∧ g.away_score = some a ∧
      sn.id = g.season_id ∧
      h.team_id = g.home_team_id ∧ h.game_id = g.id ∧
      aw.team_id = g.away_team_id ∧ aw.game_id = g.id ∧
      r = mkTrainRow games g hs a sn h aw := by
  rw [build_training_rows] at hr
  obtain ⟨g, hg, hrg⟩ := List.mem_flatMap.mp hr
  cases hh : g.home_score with
  | none =>
    rw [hh] at hrg
    cases ha : g.away_score <;> rw [ha] at hrg <;> simp at hrg
  | some hs =>
    cases ha : g.away_score with
    | none =>
      rw [hh, ha] at hrg
      simp at hrg
    | some a =>
      rw [hh, ha] at hrg
      obtain ⟨sn, hsn, hrg⟩ := List.mem_flatMap.mp hrg
      obtain ⟨hsnmem, hsnpred⟩ := List.mem_filter.mp hsn
      obtain ⟨h, hhrow, hrg⟩ := List.mem_flatMap.mp hrg
      obtain ⟨hhmem, hhpred⟩ := List.mem_filter.mp hhrow
      obtain ⟨aw, hawrow, hreq⟩ := List.mem_map.mp hrg
      obtain ⟨hawmem, hawpred⟩ := List.mem_filter.mp hawrow
      have hsn' := of_decide_eq_true hsnpred
      have hh' := of_decide_eq_true hhpred
      have haw' := of_decide_eq_true hawpred
      exact ⟨g, sn, h, aw, hs, a, hg, hsnmem, hhmem, hawmem, hh, ha, hsn',
        hh'.1, hh'.2, haw'.1, haw'.2, hreq.symm⟩

/-- The league-average subquery agrees with the claim-side characterisation
of its scope. -/
lemma leagueAvg_eq_specLeagueMean (games : List Game) (g : Game) :
    leagueAvgPtsToDate games g = specLeagueMean games g := by
  have hfil : games.filter (fun g2 =>
      decide (g2.season_id = g.season_id ∧ g2.start_time < g.start_time ∧
        g2.home_score.isSome ∧ g2.away_score.isSome)) = leaguePriorSet games g := by
    rw [leaguePriorSet]
    apply List.filter_congr
    intro x _
    apply decide_eq_decide.mpr
    unfold completed
    tauto
  rw [leagueAvgPtsToDate, specLeagueMean, hfil]

/-- C3: every training row's `league_avg_pts_season_to_date` is the mean
of (home score + away score) over exactly the completed games of the row's
season with kickoff strictly before the row's game; the game itself is
never in that scope, even though it is itself complete. -/
theorem league_avg_strictly_before (games : List Game) (seasons : List Season)
    (states : List TeamGameState) (r : TrainRow)
    (hr : r ∈ build_training_rows games seasons states) :
    ∃ g, g ∈ games ∧ r.game_id = g.id ∧ completed g ∧
      r.league_avg_pts_season_to_date = specLeagueMean games g ∧
      g ∉ leaguePriorSet games g := by
  obtain ⟨g, sn, h, aw, hs, a, hg, _, _, _, hhs, has, _, _, _, _, _, hreq⟩ :=
    build_training_rows_shape hr
  subst hreq
  refine ⟨g, hg, rfl, ⟨by simp [hhs], by simp [has]⟩, ?_, ?_⟩
  · exact leagueAvg_eq_specLeagueMean games g
  · intro hmem
    have hpred := of_decide_eq_true (List.mem_filter.mp hmem).2
    exact absurd hpred.2.2 (lt_irrefl g.start_time)

/-- Witness for C3: the fixture row for the game at t3 averages exactly
the two earlier same-season games, (30 + 31) / 2. -/
theorem league_avg_strictly_before_witness :
    (∃ g, g ∈ exGames ∧ fixtureRow3.game_id = g.id ∧ completed g ∧
      fixtureRow3.league_avg_pts_season_to_date = specLeagueMean exGames g ∧
      g ∉ leaguePriorSet exGames g) ∧
    fixtureRow3.league_avg_pts_season_to_date = some (61 / 2) := by
  have he : build_training_rows exGames [season1] [h3, aw3] = [fixtureRow3] := rfl
  constructor
  · exact league_avg_strictly_before exGames [season1] [h3, aw3] fixtureRow3
      (by rw [he]; exact List.mem_singleton_self _)
  · have hproj : fixtureRow3.league_avg_pts_season_to_date =
        leagueAvgPtsToDate exGames gA3 := rfl
    rw [hproj]
    norm_num [leagueAvgPtsToDate, exGames, gA1, gA2, gA3]

/-- C4 counterexample: a concrete joined row on which the produced
`turnover_edge_l3_l5` is the negation of the claim's formula (home's
takeaway term enters with the opposite sign). -/
theorem turnover_edge_counterexample :
    (build_training_rows [gA1] [season1] [cexHomeState, cexAwayState]).map
        (fun r => r.turnover_edge_l3_l5) = [-1] ∧
      claimTurnoverEdge cexHomeState cexAwayState = 1 ∧
      ((-1 : ℚ) ≠ 1) := by
  have he : build_training_rows [gA1] [season1] [cexHomeState, cexAwayState] =
      [cexRow] := rfl
  refine ⟨?_, ?_, by norm_num⟩
  · rw [he, List.map_singleton]
    norm_num [cexRow, mkTrainRow, shrink_sql, z, cexHomeState, cexAwayState]
  · norm_num [claimTurnoverEdge, shrink_sql, z, cexHomeState, cexAwayState]

/-- C4 (amended): every training row's `turnover_edge_l3_l5` equals the
cross-matchup differential the source computes — (away turnovers committed
last-3 minus home takeaways last-5) minus (home turnovers committed last-3
minus away takeaways last-5), NULLs coalesced to 0 — shrunk by
`w = gp/(gp+3)` with `gp` the lesser of the two games-played counts, then
clamped to `[-4, 4]`. -/
theorem turnover_edge_formula (games : List Game) (seasons : List Season)
    (states : List TeamGameState) (r : TrainRow)
    (hr : r ∈ build_training_rows games seasons states) :
    ∃ g h aw, g ∈ games ∧ h ∈ states ∧ aw ∈ states ∧
      h.team_id = g.home_team_id ∧ h.game_id = g.id ∧
      aw.team_id = g.away_team_id ∧ aw.game_id = g.id ∧
      r.game_id = g.id ∧
      r.turnover_edge_l3_l5 = amendedTurnoverEdge h aw := by
  obtain ⟨g, sn, h, aw, hs, a, hg, _, hhm, hawm, _, _, _, hht, hhg, hawt, hawg, hreq⟩ :=
    build_training_rows_shape hr
  subst hreq
  exact ⟨g, h, aw, hg, hhm, hawm, hht, hhg, hawt, hawg, rfl, rfl⟩

/-- Witness for the amended C4 on the counterexample fixture row. -/
theorem turnover_edge_formula_witness :
    ∃ g h aw, g ∈ [gA1] ∧ h ∈ [cexHomeState, cexAwayState] ∧
      aw ∈ [cexHomeState, cexAwayState] ∧
      h.team_id = g.home_team_id ∧ h.game_id = g.id ∧
      aw.team_id = g.away_team_id ∧ aw.game_id = g.id ∧
      cexRow.game_id = g.id ∧
      cexRow.turnover_edge_l3_l5 = amendedTurnoverEdge h aw :=
  turnover_edge_formula [gA1] [season1] [cexHomeState, cexAwayState] cexRow
    (by
      have he : build_training_rows [gA1] [season1] [cexHomeState, cexAwayState] =
          [cexRow] := rfl
      rw [he]
      exact List.mem_singleton_self _)

/-- A team with no completed prior games has no completed prior games in
any season. -/
lemma seasonResults_nil_of_teamResults_nil (t s : ℕ) (p : List Game)
    (h : teamResults t p = []) : seasonResults t s p = [] := by
  rw [teamResults, List.filterMap_eq_nil_iff] at h
  rw [seasonResults, List.filterMap_eq_nil_iff]
  intro g hg
  rw [h g hg]
  simp

/-- The snapshot of either side of a completed game is among the backfill
output rows. -/
lemma specSnapshot_mem_backfill (gs : List Game) (g : Game) (t : ℕ)
    (hwf : ∀ x ∈ gs, wfGame x) (hsort : gs.Pairwise lexLt)
    (hg : g ∈ gs) (hc : completed g)
    (ht : t = g.home_team_id ∨ t = g.away_team_id) :
    specSnapshot t g (lexPriors gs g) ∈ backfillRows gs := by
  rw [backfillRows_eq_specRowsLex gs hwf hsort, specRowsLex]
  apply List.mem_flatMap.mpr
  refine ⟨g, hg, ?_⟩
  obtain ⟨hs, hh⟩ := Option.isSome_iff_exists.mp hc.1
  obtain ⟨a, ha⟩ := Option.isSome_iff_exists.mp hc.2
  simp only [emitsAt, hh, ha]
  rcases ht with rfl | rfl <;> simp

/-- C5: for a team's first-ever completed game the emitted snapshot has
`games_played = 0` and all six trailing/season aggregates equal to the
`0.0` sentinel, and the per-game-average pass leaves the row untouched —
its guarded `WHERE games_played > 0` never divides by zero and the derived
averages stay NULL, with no failure anywhere (all functions involved are
total). -/
theorem first_game_zero_history (gs : List Game) (g : Game) (t : ℕ)
    (hwf : ∀ x ∈ gs, wfGame x) (hsort : gs.Pairwise lexLt)
    (hg : g ∈ gs) (hc : completed g)
    (ht : t = g.home_team_id ∨ t = g.away_team_id)
    (hfirst : teamResults t (lexPriors gs g) = []) :
    specSnapshot t g (lexPriors gs g) ∈ backfillRows gs ∧
      (specSnapshot t g (lexPriors gs g)).games_played = 0 ∧
      (specSnapshot t g (lexPriors gs g)).off_pts_l3 = 0 ∧
      (specSnapshot t g (lexPriors gs g)).def_pa_l3 = 0 ∧
      (specSnapshot t g (lexPriors gs g)).off_pts_l5 = 0 ∧
      (specSnapshot t g (lexPriors gs g)).def_pa_l5 = 0 ∧
      (specSnapshot t g (lexPriors gs g)).off_pts_season = 0 ∧
      (specSnapshot t g (lexPriors gs g)).def_pa_season = 0 ∧
      updateAvgPoints (specSnapshot t g (lexPriors gs g)) =
        specSnapshot t g (lexPriors gs g) ∧
      (updateAvgPoints (specSnapshot t g (lexPriors gs g))).avg_points_for = none ∧
      (updateAvgPoints (specSnapshot t g (lexPriors gs g))).avg_points_against = none ∧
      (updateAvgPoints (specSnapshot t g (lexPriors gs g))).avg_point_diff = none := by
  have hseason :=
    seasonResults_nil_of_teamResults_nil t g.season_id (lexPriors gs g) hfirst
  have hgp : (specSnapshot t g (lexPriors gs g)).games_played = 0 := by
    simp [specSnapshot, hseason]
  have hupd : updateAvgPoints (specSnapshot t g (lexPriors gs g)) =
      specSnapshot t g (lexPriors gs g) := by
    rw [updateAvgPoints, if_neg]
    simp [hgp]
  refine ⟨specSnapshot_mem_backfill gs g t hwf hsort hg hc ht, hgp,
    ?_, ?_, ?_, ?_, ?_, ?_, hupd,
    by rw [hupd]; simp [specSnapshot],
    by rw [hupd]; simp [specSnapshot],
    by rw [hupd]; simp [specSnapshot]⟩ <;>
    simp [specSnapshot, hfirst, hseason, lastN, avg_points_for_fn,
      avg_points_against_fn]

/-- Witness for C5: team 100's snapshot at its first-ever game. -/
theorem first_game_zero_history_witness :
    specSnapshot 100 gA1 (lexPriors exGames gA1) ∈ backfillRows exGames ∧
      (specSnapshot 100 gA1 (lexPriors exGames gA1)).games_played = 0 ∧
      (specSnapshot 100 gA1 (lexPriors exGames gA1)).off_pts_l3 = 0 ∧
      (specSnapshot 100 gA1 (lexPriors exGames gA1)).def_pa_l3 = 0 ∧
      (specSnapshot 100 gA1 (lexPriors exGames gA1)).off_pts_l5 = 0 ∧
      (specSnapshot 100 gA1 (lexPriors exGames gA1)).def_pa_l5 = 0 ∧
      (specSnapshot 100 gA1 (lexPriors exGames gA1)).off_pts_season = 0 ∧
      (specSnapshot 100 gA1 (lexPriors exGames gA1)).def_pa_season = 0 ∧
      updateAvgPoints (specSnapshot 100 gA1 (lexPriors exGames gA1)) =
        specSnapshot 100 gA1 (lexPriors exGames gA1) ∧
      (updateAvgPoints (specSnapshot 100 gA1 (lexPriors exGames gA1))).avg_points_for = none ∧
      (updateAvgPoints (specSnapshot 100 gA1 (lexPriors exGames gA1))).avg_points_against = none ∧
      (updateAvgPoints (specSnapshot 100 gA1 (lexPriors exGames gA1))).avg_point_diff = none :=
  first_game_zero_history exGames gA1 100 (by decide) (by decide) (by decide)
    (by decide) (by decide) (by decide)

/-- C9: the Python trailing windows are keyed by team only.  For the first
completed game a team plays in a season, the snapshot has
`games_played = 0` and zero season sums, while its last-3/last-5 averages
are still computed over the team's most recent completed games across
season boundaries.  The SQL rollups behave differently: their window
frames partition by `(team_id, season_id)`, so a row with no same-season
predecessor gets 0 for every window sum. -/
theorem window_not_season_scoped (gs : List Game) (g : Game) (t : ℕ)
    (hwf : ∀ x ∈ gs, wfGame x) (hsort : gs.Pairwise lexLt)
    (hg : g ∈ gs) (hc : completed g)
    (ht : t = g.home_team_id ∨ t = g.away_team_id)
    (hnew : seasonResults t g.season_id (lexPriors gs g) = []) :
    specSnapshot t g (lexPriors gs g) ∈ backfillRows gs ∧
      (specSnapshot t g (lexPriors gs g)).games_played = 0 ∧
      (specSnapshot t g (lexPriors gs g)).off_pts_season = 0 ∧
      (specSnapshot t g (lexPriors gs g)).def_pa_season = 0 ∧
      (specSnapshot t g (lexPriors gs g)).off_pts_l3 =
        avg_points_for_fn (lastN 3 (teamResults t (lexPriors gs g))) ∧
      (specSnapshot t g (lexPriors gs g)).off_pts_l5 =
        avg_points_for_fn (lastN 5 (teamResults t (lexPriors gs g))) ∧
      (∀ (stats : List StatRow) (s : StatRow) (col : StatRow → ℚ) (n : Option ℕ),
        stats.filter (fun s2 =>
          decide (s2.team_id = s.team_id ∧ s2.season_id = s.season_id ∧
            s2.start_time < s.start_time)) = [] →
        wsum stats col n s = 0) := by
  refine ⟨specSnapshot_mem_backfill gs g t hwf hsort hg hc ht,
    by simp [specSnapshot, hnew], by simp [specSnapshot, hnew],
    by simp [specSnapshot, hnew], rfl, rfl, ?_⟩
  intro stats s col n hfil
  cases n with
  | none =>
    simp only [wsum]
    rw [hfil]
    simp
  | some k =>
    simp only [wsum]
    rw [hfil]
    simp [lastN]

/-- Witness for C9: team 100's snapshot at its first season-2 game still
averages its three season-1 games (58/3 points for, nonzero), while a
season-partitioned SQL window sum over the matching base rows is 0. -/
theorem window_not_season_scoped_witness :
    specSnapshot 100 gB (lexPriors exGames2 gB) ∈ backfillRows exGames2 ∧
      (specSnapshot 100 gB (lexPriors exGames2 gB)).games_played = 0 ∧
      (specSnapshot 100 gB (lexPriors exGames2 gB)).off_pts_season = 0 ∧
      wsum [statS1, statS2] StatRow.off_yards (some 3) statS2 = 0 ∧
      (specSnapshot 100 gB (lexPriors exGames2 gB)).off_pts_l3 = 58 / 3 := by
  have h := window_not_season_scoped exGames2 gB 100 (by decide) (by decide)
    (by decide) (by decide) (by decide) (by decide)
  refine ⟨h.1, h.2.1, h.2.2.1, ?_, ?_⟩
  · exact h.2.2.2.2.2.2 [statS1, statS2] statS2 StatRow.off_yards (some 3)
      (by decide)
  · have hproj : (specSnapshot 100 gB (lexPriors exGames2 gB)).off_pts_l3 =
        avg_points_for_fn (lastN 3 (teamResults 100 (lexPriors exGames2 gB))) := rfl
    rw [hproj]
    have hres : teamResults 100 (lexPriors exGames2 gB) =
        [⟨20, 10⟩, ⟨14, 17⟩, ⟨24, 3⟩] := by decide
    rw [hres]
    norm_num [lastN, avg_points_for_fn]

/-- A run of the `fetch_training_rows` comprehension over a row list that
contains a NULL league average raises `TypeError`. -/
lemma fetchAux_error_of_none {l : List TrainRow}
    (h : ∃ r ∈ l, r.league_avg_pts_season_to_date = none) :
    fetchAux l = Except.error PyError.typeError := by
  induction l with
  | nil => simp at h
  | cons r0 rest ih =>
    rw [fetchAux]
    cases hr0 : r0.league_avg_pts_season_to_date with
    | none => simp [toGameTrainingRow, hr0]
    | some q =>
      have hrest : ∃ r ∈ rest, r.league_avg_pts_season_to_date = none := by
        obtain ⟨r, hr, hn⟩ := h
        rcases List.mem_cons.mp hr with rfl | hr'
        · rw [hr0] at hn; cases hn
        · exact ⟨r, hr', hn⟩
      rw [ih hrest]
      simp [toGameTrainingRow, hr0]

/-- C10: for a completed game with no completed same-season predecessor,
the league-average subquery yields NULL, and any `fetch_training_rows`
call whose fetched window contains a row with that NULL aborts with
`TypeError` instead of returning rows with a sentinel. -/
theorem league_avg_null_fetch_type_error (games : List Game) (g : Game)
    (hg : g ∈ games) (hc : completed g)
    (hfirst : ∀ g2 ∈ games, g2.season_id = g.season_id →
      g2.start_time < g.start_time → ¬ completed g2) :
    leagueAvgPtsToDate games g = none ∧
      ∀ (seasons : List Season) (states : List TeamGameState) (limit : ℕ)
        (r : TrainRow),
        r ∈ (build_training_rows games seasons states).take limit →
        r.league_avg_pts_season_to_date = none →
        fetch_training_rows games seasons states limit =
          Except.error PyError.typeError := by
  constructor
  · have hnil : games.filter (fun g2 =>
        decide (g2.season_id = g.season_id ∧ g2.start_time < g.start_time ∧
          g2.home_score.isSome ∧ g2.away_score.isSome)) = [] := by
      apply List.filter_eq_nil_iff.mpr
      intro g2 hg2
      simp only [decide_eq_true_eq]
      rintro ⟨h1, h2, h3, h4⟩
      exact hfirst g2 hg2 h1 h2 ⟨h3, h4⟩
    simp only [leagueAvgPtsToDate]
    rw [hnil]
    simp
  · intro seasons states limit r hr hnone
    rw [fetch_training_rows]
    exact fetchAux_error_of_none ⟨r, hr, hnone⟩

/-- Witness for C10 on the one-game fixture: the backfilled join produces
one row, its league average is NULL, and the fetch raises. -/
theorem league_avg_null_fetch_type_error_witness :
    leagueAvgPtsToDate [gA1] gA1 = none ∧
      fetch_training_rows [gA1] [season1] (backfillRows [gA1]) 25 =
        Except.error PyError.typeError := by
  have h := league_avg_null_fetch_type_error [gA1] gA1 (by decide) (by decide)
    (by decide)
  refine ⟨h.1, ?_⟩
  have he : build_training_rows [gA1] [season1] (backfillRows [gA1]) =
      [mkTrainRow [gA1] gA1 20 10 season1
        (emitSnapshot initAggState gA1 100) (emitSnapshot initAggState gA1 200)] := rfl
  refine h.2 [season1] (backfillRows [gA1]) 25
    (mkTrainRow [gA1] gA1 20 10 season1
      (emitSnapshot initAggState gA1 100) (emitSnapshot initAggState gA1 200))
    ?_ ?_
  · rw [he]
    simp
  · have hproj : (mkTrainRow [gA1] gA1 20 10 season1
        (emitSnapshot initAggState gA1 100)
        (emitSnapshot initAggState gA1 200)).league_avg_pts_season_to_date =
        leagueAvgPtsToDate [gA1] gA1 := rfl
    rw [hproj]
    exact h.1

/-- C2 (as a concrete evaluation): the training-row SELECT applies no
minimum-games filter — for a history whose single game is both teams'
first ever, it still produces a training row, with zero games played on
both sides. -/
theorem training_rows_include_zero_history :
    (build_training_rows [gA1] [season1]
        (backfill_team_game_state [] [gA1] [] none none)).map
        (fun r => (r.home_games_played, r.away_games_played)) = [(0, 0)] ∧
      (0 : ℕ) < 3 := by
  refine ⟨by decide, by norm_num⟩

/-- A row with only finite cells has no first-bad index, and conversely. -/
lemma firstBadInRow_eq_none_iff (l : List NpVal) :
    firstBadInRow l = none ↔ ∀ v ∈ l, v.isFinite = true := by
  induction l with
  | nil => simp [firstBadInRow]
  | cons v rest ih =>
    by_cases hv : v.isFinite = true
    · simp [firstBadInRow, hv, ih, Option.map_eq_none']
    · rw [firstBadInRow, if_neg hv]
      constructor
      · intro h
        exact Option.noConfusion h
      · intro h
        exact absurd (h v (List.mem_cons_self v rest)) hv

/-- The first-bad index of a row points at a non-finite cell. -/
lemma firstBadInRow_spec (l : List NpVal) (j : ℕ)
    (h : firstBadInRow l = some j) :
    ∃ v, l[j]? = some v ∧ v.isFinite = false := by
  induction l generalizing j with
  | nil => simp [firstBadInRow] at h
  | cons v rest ih =>
    by_cases hv : v.isFinite = true
    · rw [firstBadInRow, if_pos hv] at h
      cases hm : firstBadInRow rest with
      | none => rw [hm] at h; simp at h
      | some j' =>
        rw [hm] at h
        simp only [Option.map_some', Option.some.injEq] at h
        obtain ⟨w, hw1, hw2⟩ := ih j' hm
        refine ⟨w, ?_, hw2⟩
        rw [← h]
        simpa using hw1
    · rw [firstBadInRow, if_neg hv] at h
      simp only [Option.some.injEq] at h
      refine ⟨v, ?_, by simpa using hv⟩
      rw [← h]
      simp

/-- A matrix with only finite cells has no first-bad cell, and
conversely. -/
lemma firstBadCell_eq_none_iff (X : List (List NpVal)) :
    firstBadCell X = none ↔ ∀ row ∈ X, ∀ v ∈ row, v.isFinite = true := by
  induction X with
  | nil => simp [firstBadCell]
  | cons row rest ih =>
    cases hm : firstBadInRow row with
    | some j =>
      simp only [firstBadCell, hm]
      constructor
      · intro h
        exact Option.noConfusion h
      · intro h
        exfalso
        have hnone := (firstBadInRow_eq_none_iff row).mpr
          (h row (List.mem_cons_self row rest))
        rw [hnone] at hm
        exact Option.noConfusion hm
    | none =>
      have hrow := (firstBadInRow_eq_none_iff row).mp hm
      simp only [firstBadCell, hm]
      rw [Option.map_eq_none', ih, List.forall_mem_cons]
      exact (and_iff_right hrow).symm

/-- The first-bad cell of a matrix points at a non-finite cell. -/
lemma firstBadCell_spec (X : List (List NpVal)) (i j : ℕ)
    (h : firstBadCell X = some (i, j)) :
    ∃ row v, X[i]? = some row ∧ row[j]? = some v ∧ v.isFinite = false := by
  induction X generalizing i with
  | nil => simp [firstBadCell] at h
  | cons row rest ih =>
    cases hm : firstBadInRow row with
    | some j0 =>
      simp only [firstBadCell, hm, Option.some.injEq, Prod.mk.injEq] at h
      obtain ⟨hi, hj⟩ := h
      obtain ⟨v, hv1, hv2⟩ := firstBadInRow_spec row j0 hm
      subst hi
      subst hj
      exact ⟨row, v, by simp, hv1, hv2⟩
    | none =>
      simp only [firstBadCell, hm] at h
      cases hc : firstBadCell rest with
      | none => rw [hc] at h; simp at h
      | some p =>
        rw [hc] at h
        obtain ⟨i', j'⟩ := p
        simp only [Option.map_some', Option.some.injEq, Prod.mk.injEq] at h
        obtain ⟨hi, hj⟩ := h
        subst hj
        obtain ⟨row', v, h1, h2, h3⟩ := ih i' hc
        subst hi
        exact ⟨row', v, by simpa using h1, h2, h3⟩

/-- C8: `extract_xy` is a total guard.  If every feature cell is finite it
returns the full matrix and target vector with every row intact (nothing
dropped, coerced, or imputed); if any cell is non-finite it returns the
diagnostic error, whose row/column indices locate a non-finite cell of the
assembled matrix and whose payload carries all raw feature values of the
offending row. -/
theorem extract_xy_nonfinite_guard (rows : List GameTrainingRow) :
    ((∀ r ∈ rows, ∀ v ∈ featureVals r, v.isFinite = true) →
        extract_xy rows =
          Except.ok ((rows.map featureVals).map (fun row => row.map NpVal.toFloatQ),
            rows.map GameTrainingRow.point_diff)) ∧
    ((∃ r ∈ rows, ∃ v ∈ featureVals r, v.isFinite = false) →
        ∃ e, extract_xy rows = Except.error e ∧
          ∃ row, (rows.map featureVals)[e.row]? = some row ∧ e.raw = row ∧
            ∃ v, row[e.col]? = some v ∧ v.isFinite = false) := by
  constructor
  · intro hfin
    have hnone : firstBadCell (rows.map featureVals) = none := by
      rw [firstBadCell_eq_none_iff]
      intro row hrow
      obtain ⟨r, hr, hrow'⟩ := List.mem_map.mp hrow
      exact hrow' ▸ hfin r hr
    simp only [extract_xy]
    rw [hnone]
  · intro hbad
    cases hcell : firstBadCell (rows.map featureVals) with
    | none =>
      exfalso
      obtain ⟨r, hr, v, hv, hvf⟩ := hbad
      have hfin := (firstBadCell_eq_none_iff _).mp hcell (featureVals r)
        (List.mem_map_of_mem _ hr) v hv
      rw [hfin] at hvf
      exact Bool.noConfusion hvf
    | some p =>
      obtain ⟨i, j⟩ := p
      obtain ⟨row, v, h1, h2, h3⟩ := firstBadCell_spec _ i j hcell
      refine ⟨⟨i, j, (rows.map featureVals).getD i []⟩, ?_, row, h1, ?_, v, h2, h3⟩
      · simp only [extract_xy]
        rw [hcell]
      · show (rows.map featureVals).getD i [] = row
        rw [List.getD_eq_getElem?_getD, h1]
        rfl

/-- Witness for C8: a fully finite row passes through unchanged; the same
row with a NULL yardage edge aborts with the diagnostic error. -/
theorem extract_xy_nonfinite_guard_witness :
    extract_xy [goodGTR] =
      Except.ok ((([goodGTR].map featureVals).map (fun row => row.map NpVal.toFloatQ)),
        [goodGTR].map GameTrainingRow.point_diff) ∧
    (∃ e, extract_xy [badGTR] = Except.error e ∧
      ∃ row, ([badGTR].map featureVals)[e.row]? = some row ∧ e.raw = row ∧
        ∃ v, row[e.col]? = some v ∧ v.isFinite = false) :=
  ⟨(extract_xy_nonfinite_guard [goodGTR]).1 (by decide),
   (extract_xy_nonfinite_guard [badGTR]).2 (by decide)⟩

/-- The avg-points UPDATE leaves `game_id` unchanged. -/
lemma uA_game_id (r : TeamGameState) :
    (updateAvgPoints r).game_id = r.game_id := by
  rw [updateAvgPoints]; split <;> rfl

lemma uA_games_played (r : TeamGameState) :
    (updateAvgPoints r).games_played = r.games_played := by
  rw [updateAvgPoints]; split <;> rfl

lemma uA_off_pts_season (r : TeamGameState) :
    (updateAvgPoints r).off_pts_season = r.off_pts_season := by
  rw [updateAvgPoints]; split <;> rfl

lemma uA_def_pa_season (r : TeamGameState) :
    (updateAvgPoints r).def_pa_season = r.def_pa_season := by
  rw [updateAvgPoints]; split <;> rfl

lemma uA_eq_pos (x : TeamGameState) (h : x.games_played > 0) :
    updateAvgPoints x =
      { x with
        avg_points_for := some (x.off_pts_season / (x.games_played : ℚ))
        avg_points_against := some (x.def_pa_season / (x.games_played : ℚ))
        avg_point_diff :=
          some (x.off_pts_season / (x.games_played : ℚ) -
            x.def_pa_season / (x.games_played : ℚ)) } := by
  rw [updateAvgPoints, if_pos h]

lemma uA_eq_neg (x : TeamGameState) (h : ¬ x.games_played > 0) :
    updateAvgPoints x = x := by
  rw [updateAvgPoints, if_neg h]

lemma uA_avg_for_pos (x : TeamGameState) (h : x.games_played > 0) :
    (updateAvgPoints x).avg_points_for =
      some (x.off_pts_season / (x.games_played : ℚ)) := by
  rw [updateAvgPoints, if_pos h]

lemma uA_avg_against_pos (x : TeamGameState) (h : x.games_played > 0) :
    (updateAvgPoints x).avg_points_against =
      some (x.def_pa_season / (x.games_played : ℚ)) := by
  rw [updateAvgPoints, if_pos h]

lemma uA_avg_diff_pos (x : TeamGameState) (h : x.games_played > 0) :
    (updateAvgPoints x).avg_point_diff =
      some (x.off_pts_season / (x.games_played : ℚ) -
        x.def_pa_season / (x.games_played : ℚ)) := by
  rw [updateAvgPoints, if_pos h]

/-- The rollup UPDATE leaves `game_id` unchanged. -/
lemma uR_game_id (stats : List StatRow) (r : TeamGameState) :
    (updateRollups stats r).game_id = r.game_id := by
  rw [updateRollups]; split <;> rfl

lemma uR_games_played (stats : List StatRow) (r : TeamGameState) :
    (updateRollups stats r).games_played = r.games_played := by
  rw [updateRollups]; split <;> rfl

lemma uR_off_pts_season (stats : List StatRow) (r : TeamGameState) :
    (updateRollups stats r).off_pts_season = r.off_pts_season := by
  rw [updateRollups]; split <;> rfl

lemma uR_def_pa_season (stats : List StatRow) (r : TeamGameState) :
    (updateRollups stats r).def_pa_season = r.def_pa_season := by
  rw [updateRollups]; split <;> rfl

lemma uR_avg_for (stats : List StatRow) (r : TeamGameState) :
    (updateRollups stats r).avg_points_for = r.avg_points_for := by
  rw [updateRollups]; split <;> rfl

lemma uR_avg_against (stats : List StatRow) (r : TeamGameState) :
    (updateRollups stats r).avg_points_against = r.avg_points_against := by
  rw [updateRollups]; split <;> rfl

lemma uR_avg_diff (stats : List StatRow) (r : TeamGameState) :
    (updateRollups stats r).avg_point_diff = r.avg_point_diff := by
  rw [updateRollups]; split <;> rfl

/-- Re-assigning the three average columns to their current values is the
identity. -/
lemma setAvg_eq_self (x : TeamGameState) (v1 v2 v3 : Option ℚ)
    (h1 : x.avg_points_for = v1) (h2 : x.avg_points_against = v2)
    (h3 : x.avg_point_diff = v3) :
    ({ x with
        avg_points_for := v1
        avg_points_against := v2
        avg_point_diff := v3 } : TeamGameState) = x := by
  cases x
  cases h1
  cases h2
  cases h3
  rfl

/-- Overwriting the rollup columns twice with the same values is the same
as overwriting them once. -/
lemma applyRollup_idem (stats : List StatRow) (s : StatRow)
    (r : TeamGameState) :
    applyRollup stats s (applyRollup stats s r) = applyRollup stats s r := by
  cases r
  rfl

/-- The rollup UPDATE is idempotent on one row. -/
lemma uR_idem (stats : List StatRow) (x : TeamGameState) :
    updateRollups stats (updateRollups stats x) = updateRollups stats x := by
  cases hfind : stats.find? (fun s =>
      decide (s.game_id = x.game_id ∧ s.team_id = x.team_id)) with
  | none =>
    have h1 : updateRollups stats x = x := by
      rw [updateRollups, hfind]
    rw [h1]
    exact h1
  | some s =>
    have h1 : updateRollups stats x = applyRollup stats s x := by
      rw [updateRollups, hfind]
    rw [h1]
    have hfind2 : stats.find? (fun s2 =>
        decide (s2.game_id = (applyRollup stats s x).game_id ∧
          s2.team_id = (applyRollup stats s x).team_id)) = some s := hfind
    rw [updateRollups, hfind2]
    exact applyRollup_idem stats s x

/-- One application of the two post-passes is a fixed point of itself. -/
lemma pass_idem (stats : List StatRow) (r : TeamGameState) :
    updateRollups stats (updateAvgPoints (updateRollups stats (updateAvgPoints r))) =
      updateRollups stats (updateAvgPoints r) := by
  have hA : updateAvgPoints (updateRollups stats (updateAvgPoints r)) =
      updateRollups stats (updateAvgPoints r) := by
    by_cases hgp : r.games_played > 0
    · have hgp2 : (updateRollups stats (updateAvgPoints r)).games_played > 0 := by
        rw [uR_games_played, uA_games_played]
        exact hgp
      rw [uA_eq_pos _ hgp2]
      apply setAvg_eq_self
      · rw [uR_avg_for, uR_off_pts_season, uR_games_played, uA_games_played,
          uA_off_pts_season, uA_avg_for_pos r hgp]
      · rw [uR_avg_against, uR_def_pa_season, uR_games_played, uA_games_played,
          uA_def_pa_season, uA_avg_against_pos r hgp]
      · rw [uR_avg_diff, uR_off_pts_season, uR_def_pa_season, uR_games_played,
          uA_games_played, uA_off_pts_season, uA_def_pa_season,
          uA_avg_diff_pos r hgp]
    · have hgp2 : ¬ (updateRollups stats (updateAvgPoints r)).games_played > 0 := by
        rw [uR_games_played, uA_games_played]
        exact hgp
      rw [uA_eq_neg _ hgp2]
  rw [hA]
  exact uR_idem stats (updateAvgPoints r)

/-- Every generated state row's `game_id` is the id of a processed game. -/
lemma runAux_game_ids :
    ∀ (gs0 : List Game) (st : AggState) (r : TeamGameState),
      r ∈ runAux st gs0 → r.game_id ∈ gs0.map Game.id := by
  intro gs0
  induction gs0 with
  | nil =>
    intro st r hr
    simp [runAux] at hr
  | cons g rest ih =>
    intro st r hr
    rw [runAux] at hr
    rcases List.mem_append.mp hr with hr1 | hr2
    · have hcases : (stepGame st g).2 = [] ∨
          (stepGame st g).2 =
            [emitSnapshot st g g.home_team_id, emitSnapshot st g g.away_team_id] := by
        rw [stepGame]
        cases g.home_score <;> cases g.away_score <;> simp
      rcases hcases with he | he
      · rw [he] at hr1
        cases hr1
      · rw [he] at hr1
        have hid : r.game_id = g.id := by
          rcases List.mem_cons.mp hr1 with rfl | hr1'
          · rfl
          · rcases List.mem_cons.mp hr1' with rfl | hr1''
            · rfl
            · cases hr1''
        rw [hid]
        simp
    · have := ih (stepGame st g).1 r hr2
      simp only [List.map_cons, List.mem_cons]
      exact Or.inr (by simpa using this)

/-- Delete-by-scope, regenerate, and re-run the table passes: running the
whole combination twice equals running it once, provided the passes are
per-row idempotent, preserve `game_id`, and every regenerated row is in
the deleted scope. -/
lemma delete_insert_idem (tbl gen : List TeamGameState) (ids : List ℕ)
    (P : TeamGameState → TeamGameState)
    (hPid : ∀ r, (P r).game_id = r.game_id)
    (hPP : ∀ r, P (P r) = P r)
    (hgen : ∀ r ∈ gen, r.game_id ∈ ids) :
    ((((tbl.filter (fun r => decide (r.game_id ∉ ids))) ++ gen).map P).filter
        (fun r => decide (r.game_id ∉ ids)) ++ gen).map P =
      ((tbl.filter (fun r => decide (r.game_id ∉ ids))) ++ gen).map P := by
  have hQP : ((((tbl.filter (fun r => decide (r.game_id ∉ ids))) ++ gen).map P).filter
      (fun r => decide (r.game_id ∉ ids))) =
      (((tbl.filter (fun r => decide (r.game_id ∉ ids))) ++ gen).filter
        (fun r => decide (r.game_id ∉ ids))).map P := by
    rw [List.filter_map]
    congr 1
    apply List.filter_congr
    intro a _
    simp [Function.comp, hPid]
  rw [hQP]
  have h2 : (((tbl.filter (fun r => decide (r.game_id ∉ ids))) ++ gen).filter
      (fun r => decide (r.game_id ∉ ids))) =
      tbl.filter (fun r => decide (r.game_id ∉ ids)) := by
    rw [List.filter_append]
    have ha : (tbl.filter (fun r => decide (r.game_id ∉ ids))).filter
        (fun r => decide (r.game_id ∉ ids)) =
        tbl.filter (fun r => decide (r.game_id ∉ ids)) :=
      List.filter_eq_self.mpr (fun a ha => (List.mem_filter.mp ha).2)
    have hb : gen.filter (fun r => decide (r.game_id ∉ ids)) = [] := by
      apply List.filter_eq_nil_iff.mpr
      intro r hr
      simp [hgen r hr]
    rw [ha, hb, List.append_nil]
  rw [h2, List.map_append, List.map_append, List.map_map]
  congr 1
  apply List.map_congr_left
  intro a _
  simp only [Function.comp_apply]
  exact hPP a

/-- C6: `backfill_team_game_state` is idempotent at the store level —
running it a second time over the same games, stats, and filters first
deletes exactly the rows the first run produced (their game ids all lie in
the filtered scope), regenerates the identical rows in one deterministic
chronological pass, and re-applies the two table passes, whose per-row
effect is idempotent. -/
theorem backfill_idempotent (tbl : List TeamGameState) (gs : List Game)
    (stats : List StatRow) (league_id season_id : Option ℕ) :
    backfill_team_game_state
        (backfill_team_game_state tbl gs stats league_id season_id)
        gs stats league_id season_id =
      backfill_team_game_state tbl gs stats league_id season_id := by
  cases hempty : (filteredGames gs league_id season_id).isEmpty with
  | true => simp [backfill_team_game_state, hempty]
  | false =>
    simp only [backfill_team_game_state, hempty, Bool.false_eq_true, if_false]
    exact delete_insert_idem tbl
      (backfillRows (filteredGames gs league_id season_id))
      ((filteredGames gs league_id season_id).map Game.id)
      (fun r => updateRollups stats (updateAvgPoints r))
      (fun r => by rw [uR_game_id, uA_game_id])
      (fun r => pass_idem stats r)
      (fun r hr => runAux_game_ids (filteredGames gs league_id season_id)
        initAggState r hr)

end OddsValue
